import Mathlib

/-!
Verification development for the payment → webhook → QR-credential pipeline
implemented in src/app.py (Flask).

Modelling conventions (shallow embedding):
* Python strings are `String`; a JSON field that may be absent is `Option _`
  (an absent field and an explicitly null field behave identically through
  the `x or y` idiom, captured by `optStr` / `pyOrStr`).
* `hmac.new(key, msg, sha256).hexdigest()` is modelled by an abstract
  parameter `hmacHex : String → String → String`; `hmac.compare_digest`
  is string equality (constant-time is not observable here).
* The QR rendering chain `json.dumps` / `make_qr_png` / `png_bytes_to_data_url`
  is an external pure encoder; it is modelled by an abstract parameter
  `qrPng : QrObj → String` (its output is stored but never inspected).
* `datetime.utcnow().isoformat() + Z` is a timestamp parameter `ts`.
* The in-memory dict `TX_STORE` is an association list with `lookup` / `set`;
  handlers take the store as an argument and return the updated store.
* Flask `abort(code)` is `Except.error code`; a successful JSON response is
  the `Except.ok` payload.
* The `try ... except Exception: abort(400)` wrapper of `api_verify` is
  modelled faithfully: Flask `abort` raises an `HTTPException`, which is an
  `Exception`, so every abort raised inside the `try` block is caught and
  replaced by a 400 response. `api_verify_core` is the body of the `try`
  block and `api_verify` applies the catch-all.
-/

/-- Python `str.strip()`: drop leading and trailing whitespace. Defined over
the character list so the kernel can evaluate it (String.trim is defined via
Substring auxiliaries that do not reduce). -/
def pyStrip (s : String) : String :=
  ⟨(((s.data.dropWhile Char.isWhitespace).reverse).dropWhile Char.isWhitespace).reverse⟩

/-- Python `str.lower()`, kernel-computable. -/
def pyLower (s : String) : String := ⟨s.data.map Char.toLower⟩

/-- Python `str.upper()`, kernel-computable. -/
def pyUpper (s : String) : String := ⟨s.data.map Char.toUpper⟩

/-- Python `a or b` on strings: the empty string is falsy. -/
def pyOrStr (a b : String) : String := if a = "" then b else a

/-- Python `(x or "")` for an optional string field. -/
def optStr (o : Option String) : String := o.getD ""

/-- MAX_LEN = 280 (app.py line 62). -/
def MAX_LEN : Nat := 280

/-- One entry of TX_STORE (app.py lines 48-59). The keys qr_png_b64 / ts / sig
are absent until the webhook marks the transaction paid; absent is `none`. -/
structure TxRec where
  status : String
  amount : Int
  currency : String
  nom : String
  prenom : String
  email : String
  qr_png_b64 : Option String
  ts : Option String
  sig : Option String
deriving Repr, DecidableEq

/-- TX_STORE: mapping from txid to record, as an association list. -/
abbrev TxStore := List (String × TxRec)

/-- Dict lookup `TX_STORE.get(k)`. -/
def TxStore.lookup : TxStore → String → Option TxRec
  | [], _ => none
  | (k0, r) :: t, k => if k0 = k then some r else TxStore.lookup t k

/-- Dict write `TX_STORE[k] = r` (replace in place or append). -/
def TxStore.set : TxStore → String → TxRec → TxStore
  | [], k, r => [(k, r)]
  | (k0, r0) :: t, k, r => if k0 = k then (k, r) :: t else (k0, r0) :: TxStore.set t k r

/-- The JSON object produced by build_payload and parsed back by api_verify
(app.py lines 86-89): fields nom, prenom, txid, ts, sig, alg, kid. A field
absent from an attacker-supplied QR is the empty string, which is what the
`obj.get(...) or ""` / truthiness handling in api_verify reduces it to. -/
structure QrObj where
  nom : String
  prenom : String
  txid : String
  ts : String
  sig : String
  alg : String
  kid : String
deriving Repr, DecidableEq

/-- build_payload (app.py lines 64-89). `env` is FEDAPAY_ENV, `qrKey` is
QR_SIGNING_KEY, `ts` the captured utcnow timestamp. Returns the QR object or
an abort code (400 missing fields, 413 oversized, 400 missing txid in live). -/
def build_payload (hmacHex : String → String → String) (qrKey env : String)
    (nom0 prenom0 : String) (txid0 : Option String) (ts : String) :
    Except Nat QrObj :=
  let nom := pyStrip nom0
  let prenom := pyStrip prenom0
  let txid := pyStrip (optStr txid0)
  if nom = "" ∨ prenom = "" then .error 400
  else if MAX_LEN < nom.length ∨ MAX_LEN < prenom.length then .error 413
  else if env = "live" ∧ txid = "" then .error 400
  else
    .ok { nom := nom, prenom := prenom, txid := txid, ts := ts,
          sig := hmacHex qrKey (String.intercalate "|" [nom, prenom, txid, ts]),
          alg := "HS256", kid := "qr_v1" }

/-- _verify_signature (app.py lines 233-237): false when the secret or the
header is missing, otherwise constant-time comparison of the recomputed
HMAC-SHA256 hexdigest of the raw body against the header. -/
def _verify_signature (hmacHex : String → String → String)
    (raw_body sigHeader secret : String) : Bool :=
  if secret = "" ∨ sigHeader = "" then false
  else decide (hmacHex secret raw_body = sigHeader)

/-- The currency field of a notification: absent/null, a plain code string, or
a nested object with iso / code keys (app.py lines 239-242). -/
inductive CurrencyField where
  | missing
  | str (s : String)
  | obj (iso code : Option String)
deriving Repr, DecidableEq

/-- _extract_currency (app.py lines 239-242). -/
def _extract_currency : CurrencyField → String
  | .missing => ""
  | .str s => pyUpper s
  | .obj iso code => pyUpper (pyOrStr (optStr iso) (optStr code))

/-- tx.metadata (nom / prenom / email keys). -/
structure Meta where
  nom : Option String
  prenom : Option String
  email : Option String
deriving Repr, DecidableEq

/-- tx.customer (first_name / last_name keys). -/
structure Customer where
  first_name : Option String
  last_name : Option String
deriving Repr, DecidableEq

/-- The transaction snapshot payload.data.object of a webhook notification. -/
structure TxObj where
  status : Option String
  amount : Option Int
  currency : CurrencyField
  id : Option String
  reference : Option String
  transaction_id : Option String
  customer : Option Customer
  metadata : Option Meta
deriving Repr, DecidableEq

def TxObj.empty : TxObj := ⟨none, none, .missing, none, none, none, none, none⟩

/-- payload.data of a notification. -/
structure DataObj where
  object : Option TxObj
deriving Repr, DecidableEq

/-- A parsed webhook notification body (`request.get_json(silent=True) or ...`,
app.py lines 260-263). -/
structure Notif where
  event : Option String
  data : Option DataObj
deriving Repr, DecidableEq

/-- _extract_txid (app.py lines 244-246): first truthy of id, reference,
transaction_id, stringified and stripped. -/
def _extract_txid (tx : TxObj) : String :=
  pyStrip (pyOrStr (optStr tx.id) (pyOrStr (optStr tx.reference) (optStr tx.transaction_id)))

/-- `tx = (payload.get(data) or ...).get(object) or ...` (app.py lines 262-263). -/
def txOf (n : Notif) : TxObj := ((n.data.getD ⟨none⟩).object).getD TxObj.empty

/-- `event = (payload.get(event) or "").lower()` (app.py line 261). -/
def eventOf (n : Notif) : String := pyLower (optStr n.event)

/-- `status = (tx.get(status) or "").lower()` (app.py line 265). -/
def reportedStatus (n : Notif) : String := pyLower (optStr (txOf n).status)

/-- `amount = int(tx.get(amount) or 0)` (app.py line 266). -/
def reportedAmount (n : Notif) : Int := (txOf n).amount.getD 0

/-- `currency = _extract_currency(tx.get(currency))` (app.py line 267). -/
def reportedCurrency (n : Notif) : String := _extract_currency (txOf n).currency

def custOf (n : Notif) : Customer := ((txOf n).customer).getD ⟨none, none⟩

def mdOf (n : Notif) : Meta := ((txOf n).metadata).getD ⟨none, none, none⟩

/-- `prenom = (customer.first_name or "").strip() or metadata.prenom or
"Inconnu"` (app.py line 271). -/
def prenomOf (n : Notif) : String :=
  pyOrStr (pyStrip (optStr (custOf n).first_name)) (pyOrStr (optStr (mdOf n).prenom) "Inconnu")

/-- `nom = (customer.last_name or "").strip() or metadata.nom or "Inconnu"`
(app.py line 272). -/
def nomOf (n : Notif) : String :=
  pyOrStr (pyStrip (optStr (custOf n).last_name)) (pyOrStr (optStr (mdOf n).nom) "Inconnu")

/-- `email = metadata.email or ""` (app.py line 273). -/
def emailOf (n : Notif) : String := optStr (mdOf n).email

/-- Statuses counted as paid (app.py line 277). -/
def paidSet : List String := ["approved", "paid", "success", "completed"]

/-- Accepted currency codes, hardcoded in the gate (app.py line 278). -/
def moneyCurrencies : List String := ["XOF", "CFA", "FCFA"]

/-- The store key used by the webhook: `txid or "unknown"` (app.py line 281). -/
def storeKey (n : Notif) : String :=
  if _extract_txid (txOf n) = "" then "unknown" else _extract_txid (txOf n)

/-- The default record inserted by `TX_STORE.setdefault` (app.py lines 281-286). -/
def defaultRec (n : Notif) : TxRec :=
  { status := "pending", amount := reportedAmount n, currency := reportedCurrency n,
    nom := nomOf n, prenom := prenomOf n, email := emailOf n,
    qr_png_b64 := none, ts := none, sig := none }

/-- The in-place `rec.update(...)` merge of app.py line 288: amount and
currency keep the old value when the incoming one is falsy (0 resp. empty);
nom, prenom, email are overwritten; status and credential keys untouched. -/
def mergeRec (n : Notif) (r0 : TxRec) : TxRec :=
  { r0 with
    amount := if reportedAmount n = 0 then r0.amount else reportedAmount n,
    currency := if reportedCurrency n = "" then r0.currency else reportedCurrency n,
    nom := nomOf n, prenom := prenomOf n, email := emailOf n }

/-- The issuance gate of app.py line 290: `event == "transaction.approved" and
paid_ok and money_ok and txid`. -/
def gateOpen (n : Notif) (price : Int) : Bool :=
  decide (eventOf n = "transaction.approved" ∧ reportedStatus n ∈ paidSet ∧
    (reportedAmount n = price ∧ reportedCurrency n ∈ moneyCurrencies) ∧
    _extract_txid (txOf n) ≠ "")

/-- webhook_fedapay (app.py lines 248-310). `price` is EVENT_PRICE_XOF.
Returns the HTTP outcome (ok 200 or abort code) together with the final
TX_STORE. Note that the setdefault/update mutation (store1) happens before
build_payload runs, so an abort raised by build_payload (413 on an oversized
name) leaves the merged store behind. -/
def webhook_fedapay (hmacHex : String → String → String) (qrPng : QrObj → String)
    (webhookSecret qrKey env : String) (price : Int)
    (store : TxStore) (raw sigHeader : String) (n : Notif) (ts : String) :
    Except Nat Unit × TxStore :=
  if _verify_signature hmacHex raw sigHeader webhookSecret = true then
    let key := storeKey n
    let r1 := mergeRec n ((store.lookup key).getD (defaultRec n))
    let store1 := store.set key r1
    if gateOpen n price = true then
      match build_payload hmacHex qrKey env (nomOf n) (prenomOf n)
          (some (_extract_txid (txOf n))) ts with
      | .error c => (.error c, store1)
      | .ok obj =>
          (.ok (), store1.set key
            { r1 with status := "paid", qr_png_b64 := some (qrPng obj),
                      ts := some obj.ts, sig := some obj.sig })
    else (.ok (), store1)
  else (.error 401, store)

/-- The success payload of /api/verify: jsonify ok/nom/prenom/txid/ts. -/
structure VerifyOk where
  nom : String
  prenom : String
  txid : String
  ts : String
deriving Repr, DecidableEq

/-- The body of the `try` block of api_verify (app.py lines 351-372): field
extraction and truthiness check (400), HMAC comparison (401), store lookup and
paid check (403), success. The input is the result of `json.loads(qr_text)`;
`none` stands for a body whose qr_text is missing or not valid JSON. -/
def api_verify_core (hmacHex : String → String → String) (qrKey : String)
    (store : TxStore) (qr : Option QrObj) : Except Nat VerifyOk :=
  match qr with
  | none => .error 400
  | some obj =>
    let nom := pyStrip obj.nom
    let prenom := pyStrip obj.prenom
    let txid := pyStrip obj.txid
    let ts := obj.ts
    let sig := obj.sig
    if nom = "" ∨ prenom = "" ∨ txid = "" ∨ ts = "" ∨ sig = "" then .error 400
    else if hmacHex qrKey (String.intercalate "|" [nom, prenom, txid, ts]) = sig then
      match store.lookup txid with
      | none => .error 403
      | some r => if r.status = "paid" then .ok ⟨nom, prenom, txid, ts⟩ else .error 403
    else .error 401

/-- api_verify (app.py lines 341-374). The whole body sits inside
`try ... except Exception: abort(400, "QR invalide")`; Flask abort raises an
HTTPException, a subclass of Exception, so the 400/401/403 aborts raised in
the try block are all caught and replaced by a plain 400. The handler reads
TX_STORE but never writes it (the anti-double-scan marker is only a TODO at
app.py line 371), so it returns no updated store. -/
def api_verify (hmacHex : String → String → String) (qrKey : String)
    (store : TxStore) (qr : Option QrObj) : Except Nat VerifyOk :=
  match api_verify_core hmacHex qrKey store qr with
  | .ok r => .ok r
  | .error _ => .error 400

/-- The `data` sub-object of a FedaPay create-transaction response. -/
structure GwData where
  link : Option String
  url : Option String
  checkout_url : Option String
  id : Option String
deriving Repr, DecidableEq

def GwData.empty : GwData := ⟨none, none, none, none⟩

/-- A FedaPay create-transaction JSON response (`r.json() or ...`). -/
structure GwResp where
  data : Option GwData
  link : Option String
  url : Option String
  id : Option String
deriving Repr, DecidableEq

/-- pay_intent (app.py lines 158-230). `gw` is the outcome of the
`requests.post` call to the gateway: `none` models a transport error or
non-success status (the except branch), `some resp` a parsed JSON response.
Result: (HTTP outcome carrying pay_url and tx_ref, final store, whether the
gateway was called). Validation (empty nom or prenom → 400) happens before
the gateway call and before any store access. -/
def pay_intent (price : Int) (currencyCfg : String) (store : TxStore)
    (nomIn prenomIn emailIn : Option String) (gw : Option GwResp) :
    Except Nat (String × Option String) × TxStore × Bool :=
  let nom := pyStrip (optStr nomIn)
  let prenom := pyStrip (optStr prenomIn)
  let email := pyStrip (optStr emailIn)
  if nom = "" ∨ prenom = "" then (.error 400, store, false)
  else
    match gw with
    | none => (.error 502, store, true)
    | some resp =>
      let d := resp.data.getD GwData.empty
      let pay_url := pyOrStr (optStr d.link) (pyOrStr (optStr d.url)
        (pyOrStr (optStr d.checkout_url) (pyOrStr (optStr resp.link) (optStr resp.url))))
      let txid := pyOrStr (optStr d.id) (optStr resp.id)
      if pay_url = "" then (.error 502, store, true)
      else if txid = "" then (.ok (pay_url, none), store, true)
      else (.ok (pay_url, some txid),
            store.set txid ⟨"pending", price, currencyCfg, nom, prenom, email, none, none, none⟩,
            true)

deriving instance DecidableEq for Except

/-! Concrete exemplar values used by the closed theorems and witnesses below.
`hmacEx` is one concrete instantiation of the abstract HMAC parameter (any
function of key and message fits the embedding); `qrPngEx` one concrete QR
encoder. -/

def hmacEx (key msg : String) : String := "mac:" ++ key ++ ":" ++ msg

def qrPngEx (o : QrObj) : String := "png:" ++ o.txid

def custEx : Customer := ⟨some "Alice", some "Dupont"⟩

/-- A notification with event `ev`, reported status `st`, amount `amt`,
currency `cur`, id field `i` and customer `c`. -/
def mkNotif (ev st : String) (amt : Int) (cur : CurrencyField)
    (i : Option String) (c : Option Customer) : Notif :=
  ⟨some ev, some ⟨some ⟨some st, some amt, cur, i, none, none, c, none⟩⟩⟩

def notifApprovedEx : Notif :=
  mkNotif "transaction.approved" "approved" 3000 (.str "XOF") (some "tx1") (some custEx)

def notifPendingEx : Notif :=
  mkNotif "transaction.pending" "pending" 3000 (.str "XOF") (some "tx1") (some custEx)

def notifWrongAmountEx : Notif :=
  mkNotif "transaction.approved" "approved" 2500 (.str "XOF") (some "tx1") (some custEx)

def notifNoIdEx : Notif :=
  mkNotif "transaction.approved" "approved" 3000 (.str "XOF") none (some custEx)

/-- A 281-character holder name, one character over MAX_LEN. -/
def longNameEx : String := String.mk (List.replicate 281 'a')

def notifOversizedEx : Notif :=
  mkNotif "transaction.approved" "approved" 3000 (.str "XOF") (some "tx1")
    (some ⟨some "Alice", some longNameEx⟩)

/-- A webhook signature header that authenticates the raw body "body". -/
def hdrEx : String := hmacEx "whsec" "body"

/-- The credential signature over (Dupont, Alice, tx1, T1) under key qrkey. -/
def sigEx : String := hmacEx "qrkey" (String.intercalate "|" ["Dupont", "Alice", "tx1", "T1"])

def recPaidEx : TxRec :=
  ⟨"paid", 3000, "XOF", "Dupont", "Alice", "", some "png", some "T1", some sigEx⟩

def storePaidEx : TxStore := [("tx1", recPaidEx)]

/-- The QR object issued for (Dupont, Alice, tx1) at T1. -/
def objEx : QrObj := ⟨"Dupont", "Alice", "tx1", "T1", sigEx, "HS256", "qr_v1"⟩

/-- C1: the claim asserts that a second verify of the identical payload is
rejected with a ReplayError because the first verify consumed the credential.
The code performs no store write at verify (TxRec has no consumption field;
the anti-double-scan marker is only a TODO at app.py line 371), so the second
call receives the identical store and succeeds exactly like the first: for
the valid, paid credential objEx both the first and the immediately repeated
call return the success payload, and no error of any kind is produced. -/
theorem C1_second_verify_accepted :
    api_verify hmacEx "qrkey" storePaidEx (some objEx) = .ok ⟨"Dupont", "Alice", "tx1", "T1"⟩
    ∧ api_verify hmacEx "qrkey" storePaidEx (some objEx) = .ok ⟨"Dupont", "Alice", "tx1", "T1"⟩ := by
  constructor <;> decide

/-- C2: the claim asserts that a repeated approving notification is a no-op
once a credential is issued. The issuance gate (app.py line 290) has no
"not already paid" test, so the second delivery of the identical approved
notification re-runs build_payload with the fresh timestamp T2 and overwrites
the stored credential: the record ends with ts T2 and a different signature,
so the final state differs from the state after a single delivery. -/
theorem C2_reissue_overwrites :
    (webhook_fedapay hmacEx qrPngEx "whsec" "qrkey" "live" 3000 [] "body" hdrEx
        notifApprovedEx "T1").1 = .ok ()
    ∧ ((webhook_fedapay hmacEx qrPngEx "whsec" "qrkey" "live" 3000 [] "body" hdrEx
        notifApprovedEx "T1").2.lookup "tx1").map TxRec.ts = some (some "T1")
    ∧ (webhook_fedapay hmacEx qrPngEx "whsec" "qrkey" "live" 3000
        (webhook_fedapay hmacEx qrPngEx "whsec" "qrkey" "live" 3000 [] "body" hdrEx
          notifApprovedEx "T1").2 "body" hdrEx notifApprovedEx "T2").1 = .ok ()
    ∧ ((webhook_fedapay hmacEx qrPngEx "whsec" "qrkey" "live" 3000
        (webhook_fedapay hmacEx qrPngEx "whsec" "qrkey" "live" 3000 [] "body" hdrEx
          notifApprovedEx "T1").2 "body" hdrEx notifApprovedEx "T2").2.lookup "tx1").map TxRec.ts
      = some (some "T2")
    ∧ ((webhook_fedapay hmacEx qrPngEx "whsec" "qrkey" "live" 3000
        (webhook_fedapay hmacEx qrPngEx "whsec" "qrkey" "live" 3000 [] "body" hdrEx
          notifApprovedEx "T1").2 "body" hdrEx notifApprovedEx "T2").2.lookup "tx1").map TxRec.sig
      ≠ ((webhook_fedapay hmacEx qrPngEx "whsec" "qrkey" "live" 3000 [] "body" hdrEx
          notifApprovedEx "T1").2.lookup "tx1").map TxRec.sig := by
  refine ⟨by decide, by decide, by decide, by decide, by decide⟩

/-- C3: the claim asserts a bad embedded signature is rejected with 401 and a
valid signature over an absent or non-paid record with 403, the two being
distinguishable. The try block of api_verify indeed aborts with 401 and 403
respectively (visible in api_verify_core), but the surrounding
`except Exception` catches the HTTPException that Flask abort raises and
replaces every rejection with abort(400, "QR invalide"): both a tampered
signature over a paid record and a correctly signed credential for a pending
record come back as the same indistinguishable 400. -/
theorem C3_rejections_collapse_to_400 :
    api_verify hmacEx "qrkey" storePaidEx (some { objEx with sig := "deadbeef" }) = .error 400
    ∧ api_verify hmacEx "qrkey" [("tx1", { recPaidEx with status := "pending" })]
        (some objEx) = .error 400
    ∧ api_verify_core hmacEx "qrkey" storePaidEx (some { objEx with sig := "deadbeef" }) = .error 401
    ∧ api_verify_core hmacEx "qrkey" [("tx1", { recPaidEx with status := "pending" })]
        (some objEx) = .error 403 := by
  refine ⟨by decide, by decide, by decide, by decide⟩

set_option maxRecDepth 20000 in
/-- C4: the claim asserts that once webhook authentication passes the handler
returns 200 regardless of the notification content, including oversized
fields. An authenticated approved notification that passes every gate
(amount 3000, currency XOF, txid tx1) but carries a 281-character customer
last name reaches build_payload, whose MAX_LEN check aborts with 413: the
handler surfaces a transport failure instead of the claimed 200 ok. -/
theorem C4_oversized_name_aborts_413 :
    _verify_signature hmacEx "body" hdrEx "whsec" = true
    ∧ gateOpen notifOversizedEx 3000 = true
    ∧ (webhook_fedapay hmacEx qrPngEx "whsec" "qrkey" "live" 3000 [] "body" hdrEx
        notifOversizedEx "T1").1 = .error 413 := by
  refine ⟨by decide, by decide, by decide⟩

/-- C8: a webhook request with an empty configured shared secret, or a missing
signature header, or a header that differs from the keyed hash of the exact
raw body, is rejected with 401 by _verify_signature before the notification
body is consulted (the result holds for every parsed body n and timestamp)
and the store is returned unchanged. -/
theorem C8_auth_failure_rejects_untouched (hmacHex : String → String → String)
    (qrPng : QrObj → String) (secret qrKey env : String) (price : Int)
    (store : TxStore) (raw hdr : String) (n : Notif) (ts : String)
    (h : secret = "" ∨ hdr = "" ∨ hmacHex secret raw ≠ hdr) :
    webhook_fedapay hmacHex qrPng secret qrKey env price store raw hdr n ts
      = (.error 401, store) := by
  have hv : _verify_signature hmacHex raw hdr secret = false := by
    unfold _verify_signature
    rcases h with h | h | h
    · simp [h]
    · simp [h]
    · by_cases h1 : secret = "" ∨ hdr = ""
      · simp [h1]
      · simp [h1, h]
  unfold webhook_fedapay
  simp [hv]

/-- C8 witness: a concrete mismatched header on a populated store. -/
theorem C8_auth_failure_rejects_untouched_witness :
    webhook_fedapay hmacEx qrPngEx "whsec" "qrkey" "live" 3000 storePaidEx "body" "wrong"
      notifApprovedEx "T1" = (.error 401, storePaidEx) :=
  C8_auth_failure_rejects_untouched hmacEx qrPngEx "whsec" "qrkey" "live" 3000 storePaidEx
    "body" "wrong" notifApprovedEx "T1" (by decide)

/-- C9 (amended): pay_intent rejects with 400, calls no gateway and leaves the
store untouched when the stripped nom or prenom is empty. This is the only
validation the handler performs: the MAX_LEN bound lives in build_payload,
which pay_intent never calls, so oversized names are not rejected here (see
the counterexample). -/
theorem C9_empty_fields_reject (price : Int) (cur : String) (store : TxStore)
    (nomIn prenomIn emailIn : Option String) (gw : Option GwResp)
    (h : pyStrip (optStr nomIn) = "" ∨ pyStrip (optStr prenomIn) = "") :
    pay_intent price cur store nomIn prenomIn emailIn gw = (.error 400, store, false) := by
  unfold pay_intent
  simp [h]

/-- C9 witness: an empty nom is rejected with 400, no store write, no call. -/
theorem C9_empty_fields_reject_witness :
    pay_intent 3000 "XOF" storePaidEx (some "  ") (some "Alice") none none
      = (.error 400, storePaidEx, false) :=
  C9_empty_fields_reject 3000 "XOF" storePaidEx (some "  ") (some "Alice") none none (by decide)

set_option maxRecDepth 20000 in
/-- C9 counterexample: the claim also requires rejection of oversized fields,
but pay_intent has no length check: a 281-character nom (over MAX_LEN = 280)
sails through validation, the gateway IS called, and the request succeeds. -/
theorem C9_oversized_not_rejected :
    MAX_LEN < longNameEx.length
    ∧ (pay_intent 3000 "XOF" [] (some longNameEx) (some "Alice") none
        (some ⟨some ⟨some "payurl", none, none, none⟩, none, none, none⟩)).1
      = .ok ("payurl", none)
    ∧ (pay_intent 3000 "XOF" [] (some longNameEx) (some "Alice") none
        (some ⟨some ⟨some "payurl", none, none, none⟩, none, none, none⟩)).2.2 = true := by
  refine ⟨by decide, by decide, by decide⟩

/-- C5 (amended): an authenticated notification whose amount or currency
fails the gate issues nothing and acknowledges ok: the final store carries the
merged record, whose status equals the prior status of the record (pending for
a freshly created record) — the reported status is NOT written — and whose
credential fields are exactly the prior ones (none for a fresh record). -/
theorem C5_money_mismatch_no_issuance (hmacHex : String → String → String)
    (qrPng : QrObj → String) (secret qrKey env : String) (price : Int)
    (store : TxStore) (raw hdr : String) (n : Notif) (ts : String)
    (hauth : _verify_signature hmacHex raw hdr secret = true)
    (hmoney : ¬(reportedAmount n = price ∧ reportedCurrency n ∈ moneyCurrencies)) :
    webhook_fedapay hmacHex qrPng secret qrKey env price store raw hdr n ts
      = (.ok (), store.set (storeKey n)
          (mergeRec n ((store.lookup (storeKey n)).getD (defaultRec n))))
    ∧ (mergeRec n ((store.lookup (storeKey n)).getD (defaultRec n))).status
      = ((store.lookup (storeKey n)).map TxRec.status).getD "pending"
    ∧ (mergeRec n ((store.lookup (storeKey n)).getD (defaultRec n))).qr_png_b64
      = ((store.lookup (storeKey n)).map TxRec.qr_png_b64).getD none
    ∧ (mergeRec n ((store.lookup (storeKey n)).getD (defaultRec n))).ts
      = ((store.lookup (storeKey n)).map TxRec.ts).getD none
    ∧ (mergeRec n ((store.lookup (storeKey n)).getD (defaultRec n))).sig
      = ((store.lookup (storeKey n)).map TxRec.sig).getD none := by
  have hg : gateOpen n price = false := by
    unfold gateOpen
    simp only [decide_eq_false_iff_not]
    intro hcon
    exact hmoney hcon.2.2.1
  refine ⟨?_, ?_, ?_, ?_, ?_⟩
  · unfold webhook_fedapay
    simp [hauth, hg]
  all_goals cases h : store.lookup (storeKey n) <;> simp [mergeRec, defaultRec]

/-- C5 witness: authenticated approved notification with amount 2500 against
expected price 3000 on a fresh store. -/
theorem C5_money_mismatch_no_issuance_witness :
    webhook_fedapay hmacEx qrPngEx "whsec" "qrkey" "live" 3000 [] "body" hdrEx
        notifWrongAmountEx "T1"
      = (.ok (), TxStore.set [] (storeKey notifWrongAmountEx)
          (mergeRec notifWrongAmountEx ((TxStore.lookup [] (storeKey notifWrongAmountEx)).getD
            (defaultRec notifWrongAmountEx))))
    ∧ (mergeRec notifWrongAmountEx ((TxStore.lookup [] (storeKey notifWrongAmountEx)).getD
        (defaultRec notifWrongAmountEx))).status
      = ((TxStore.lookup [] (storeKey notifWrongAmountEx)).map TxRec.status).getD "pending"
    ∧ (mergeRec notifWrongAmountEx ((TxStore.lookup [] (storeKey notifWrongAmountEx)).getD
        (defaultRec notifWrongAmountEx))).qr_png_b64
      = ((TxStore.lookup [] (storeKey notifWrongAmountEx)).map TxRec.qr_png_b64).getD none
    ∧ (mergeRec notifWrongAmountEx ((TxStore.lookup [] (storeKey notifWrongAmountEx)).getD
        (defaultRec notifWrongAmountEx))).ts
      = ((TxStore.lookup [] (storeKey notifWrongAmountEx)).map TxRec.ts).getD none
    ∧ (mergeRec notifWrongAmountEx ((TxStore.lookup [] (storeKey notifWrongAmountEx)).getD
        (defaultRec notifWrongAmountEx))).sig
      = ((TxStore.lookup [] (storeKey notifWrongAmountEx)).map TxRec.sig).getD none :=
  C5_money_mismatch_no_issuance hmacEx qrPngEx "whsec" "qrkey" "live" 3000 [] "body" hdrEx
    notifWrongAmountEx "T1" (by decide) (by decide)

/-- C7: an authenticated notification targeting an already-paid record and
reporting any non-paid status leaves the record with status paid and its
credential payload, issuance timestamp and signature untouched (the merge
only refreshes amount, currency and holder contact fields); the response is
the usual 200 acknowledgement. The only branch that ever writes a different
status is the issuance branch, which writes paid — so pending to paid is the
only status transition the processor performs. -/
theorem C7_paid_record_not_regressed (hmacHex : String → String → String)
    (qrPng : QrObj → String) (secret qrKey env : String) (price : Int)
    (store : TxStore) (raw hdr : String) (n : Notif) (ts : String) (r : TxRec)
    (hauth : _verify_signature hmacHex raw hdr secret = true)
    (hlk : store.lookup (storeKey n) = some r)
    (hpaid : r.status = "paid")
    (hst : reportedStatus n ∉ paidSet) :
    webhook_fedapay hmacHex qrPng secret qrKey env price store raw hdr n ts
      = (.ok (), store.set (storeKey n) (mergeRec n r))
    ∧ (mergeRec n r).status = "paid"
    ∧ (mergeRec n r).qr_png_b64 = r.qr_png_b64
    ∧ (mergeRec n r).ts = r.ts
    ∧ (mergeRec n r).sig = r.sig := by
  have hg : gateOpen n price = false := by
    unfold gateOpen
    simp only [decide_eq_false_iff_not]
    intro hcon
    exact hst hcon.2.1
  refine ⟨?_, by simp [mergeRec, hpaid], rfl, rfl, rfl⟩
  unfold webhook_fedapay
  simp [hauth, hg, hlk]

/-- C7 witness: a stale pending notification for tx1 after tx1 is paid. -/
theorem C7_paid_record_not_regressed_witness :
    webhook_fedapay hmacEx qrPngEx "whsec" "qrkey" "live" 3000 storePaidEx "body" hdrEx
        notifPendingEx "T2"
      = (.ok (), storePaidEx.set (storeKey notifPendingEx) (mergeRec notifPendingEx recPaidEx))
    ∧ (mergeRec notifPendingEx recPaidEx).status = "paid"
    ∧ (mergeRec notifPendingEx recPaidEx).qr_png_b64 = recPaidEx.qr_png_b64
    ∧ (mergeRec notifPendingEx recPaidEx).ts = recPaidEx.ts
    ∧ (mergeRec notifPendingEx recPaidEx).sig = recPaidEx.sig :=
  C7_paid_record_not_regressed hmacEx qrPngEx "whsec" "qrkey" "live" 3000 storePaidEx
    "body" hdrEx notifPendingEx "T2" recPaidEx (by decide) (by decide) (by decide) (by decide)

/-- C10: an authenticated notification from which no transaction id can be
extracted is filed under the literal key "unknown" — the store changes only at
that shared key, by the usual merge — and the issuance gate, which requires a
non-empty txid, stays closed for every such notification, whatever its event,
amount and currency, so the unknown record keeps its prior status and never
receives a credential. -/
theorem C10_idless_goes_to_unknown (hmacHex : String → String → String)
    (qrPng : QrObj → String) (secret qrKey env : String) (price : Int)
    (store : TxStore) (raw hdr : String) (n : Notif) (ts : String)
    (hauth : _verify_signature hmacHex raw hdr secret = true)
    (hid : _extract_txid (txOf n) = "") :
    webhook_fedapay hmacHex qrPng secret qrKey env price store raw hdr n ts
      = (.ok (), store.set "unknown"
          (mergeRec n ((store.lookup "unknown").getD (defaultRec n))))
    ∧ (mergeRec n ((store.lookup "unknown").getD (defaultRec n))).status
      = ((store.lookup "unknown").map TxRec.status).getD "pending"
    ∧ (mergeRec n ((store.lookup "unknown").getD (defaultRec n))).qr_png_b64
      = ((store.lookup "unknown").map TxRec.qr_png_b64).getD none
    ∧ (mergeRec n ((store.lookup "unknown").getD (defaultRec n))).ts
      = ((store.lookup "unknown").map TxRec.ts).getD none
    ∧ (mergeRec n ((store.lookup "unknown").getD (defaultRec n))).sig
      = ((store.lookup "unknown").map TxRec.sig).getD none := by
  have hkey : storeKey n = "unknown" := by
    unfold storeKey
    simp [hid]
  have hg : gateOpen n price = false := by
    unfold gateOpen
    simp only [decide_eq_false_iff_not]
    intro hcon
    exact hcon.2.2.2 hid
  refine ⟨?_, ?_, ?_, ?_, ?_⟩
  · unfold webhook_fedapay
    simp [hauth, hg, hkey]
  all_goals cases h : store.lookup "unknown" <;> simp [mergeRec, defaultRec]

/-- C10 witness: an approved, amount-3000, currency-XOF notification with no
id field anywhere still merges into "unknown" and issues nothing, even though
every other gate condition holds. -/
theorem C10_idless_goes_to_unknown_witness :
    webhook_fedapay hmacEx qrPngEx "whsec" "qrkey" "live" 3000 [] "body" hdrEx
        notifNoIdEx "T1"
      = (.ok (), TxStore.set [] "unknown"
          (mergeRec notifNoIdEx ((TxStore.lookup [] "unknown").getD (defaultRec notifNoIdEx))))
    ∧ (mergeRec notifNoIdEx ((TxStore.lookup [] "unknown").getD (defaultRec notifNoIdEx))).status
      = ((TxStore.lookup [] "unknown").map TxRec.status).getD "pending"
    ∧ (mergeRec notifNoIdEx ((TxStore.lookup [] "unknown").getD (defaultRec notifNoIdEx))).qr_png_b64
      = ((TxStore.lookup [] "unknown").map TxRec.qr_png_b64).getD none
    ∧ (mergeRec notifNoIdEx ((TxStore.lookup [] "unknown").getD (defaultRec notifNoIdEx))).ts
      = ((TxStore.lookup [] "unknown").map TxRec.ts).getD none
    ∧ (mergeRec notifNoIdEx ((TxStore.lookup [] "unknown").getD (defaultRec notifNoIdEx))).sig
      = ((TxStore.lookup [] "unknown").map TxRec.sig).getD none :=
  C10_idless_goes_to_unknown hmacEx qrPngEx "whsec" "qrkey" "live" 3000 [] "body" hdrEx
    notifNoIdEx "T1" (by decide) (by decide)

/-- C5 counterexample: the claim says the record status is updated to the
status actually reported by the notification. An authenticated approved
notification reporting status "approved" with wrong amount 2500 (price 3000)
creates the record with status "pending" — the reported status is never
written anywhere by webhook_fedapay. -/
theorem C5_status_not_updated_to_reported :
    reportedStatus notifWrongAmountEx = "approved"
    ∧ ((webhook_fedapay hmacEx qrPngEx "whsec" "qrkey" "live" 3000 [] "body" hdrEx
        notifWrongAmountEx "T1").2.lookup "tx1").map TxRec.status = some "pending"
    ∧ ((webhook_fedapay hmacEx qrPngEx "whsec" "qrkey" "live" 3000 [] "body" hdrEx
        notifWrongAmountEx "T1").2.lookup "tx1").map TxRec.status
      ≠ some (reportedStatus notifWrongAmountEx) := by
  refine ⟨by decide, by decide, by decide⟩

/-- C6 counterexample: the claim says flipping any single bit of the credential
payload makes verification fail with a SignatureError. The signature covers
only nom, prenom, txid and ts; the alg and kid fields of the serialized JSON
are neither signed nor ever read by api_verify. Flipping the lowest bit of the
first byte of the alg value turns "HS256" (H = 0x48) into "IS256" (I = 0x49) —
a single-bit change of the payload that still parses — and verification still
succeeds. -/
theorem C6_alg_bitflip_still_verifies :
    ('H'.toNat ^^^ 'I'.toNat = 1)
    ∧ ({ objEx with alg := "IS256" } : QrObj) ≠ objEx
    ∧ api_verify hmacEx "qrkey" storePaidEx (some { objEx with alg := "IS256" })
      = .ok ⟨"Dupont", "Alice", "tx1", "T1"⟩ := by
  refine ⟨by decide, by decide, by decide⟩

/-- C6 (amended): for a record with non-empty, stripped holder names and
transaction id within the length bound, and a store that maps the id to a paid
record, verify(issue(record)) succeeds — the round trip holds. Any alteration
of the embedded signature (in particular any single bit flip, which yields a
different non-empty string sig1) makes verification fail, but with the generic
400 rejection produced by the catch-all handler rather than a distinct
SignatureError; and alterations confined to the unsigned alg and kid fields
are not detected at all (see the counterexample). -/
theorem C6_roundtrip_and_sig_tamper (hmacHex : String → String → String)
    (qrKey env : String) (store : TxStore) (nom prenom txid ts sig1 : String) (r : TxRec)
    (hn : nom ≠ "") (hp : prenom ≠ "") (ht : txid ≠ "")
    (hnt : pyStrip nom = nom) (hpt : pyStrip prenom = prenom) (htt : pyStrip txid = txid)
    (hln : nom.length ≤ MAX_LEN) (hlp : prenom.length ≤ MAX_LEN)
    (hts : ts ≠ "")
    (hsig : hmacHex qrKey (String.intercalate "|" [nom, prenom, txid, ts]) ≠ "")
    (hlk : store.lookup txid = some r) (hpaid : r.status = "paid")
    (hs1 : sig1 ≠ hmacHex qrKey (String.intercalate "|" [nom, prenom, txid, ts]))
    (hs2 : sig1 ≠ "") :
    build_payload hmacHex qrKey env nom prenom (some txid) ts
      = .ok ⟨nom, prenom, txid, ts,
          hmacHex qrKey (String.intercalate "|" [nom, prenom, txid, ts]), "HS256", "qr_v1"⟩
    ∧ api_verify hmacHex qrKey store
        (some ⟨nom, prenom, txid, ts,
          hmacHex qrKey (String.intercalate "|" [nom, prenom, txid, ts]), "HS256", "qr_v1"⟩)
      = .ok ⟨nom, prenom, txid, ts⟩
    ∧ api_verify hmacHex qrKey store
        (some ⟨nom, prenom, txid, ts, sig1, "HS256", "qr_v1"⟩) = .error 400 := by
  refine ⟨?_, ?_, ?_⟩
  · unfold build_payload
    simp only [optStr, Option.getD, hnt, hpt, htt]
    rw [if_neg (by rintro (h | h) <;> [exact hn h; exact hp h]),
        if_neg (by rintro (h | h) <;> [exact absurd hln (by omega); exact absurd hlp (by omega)]),
        if_neg (by rintro ⟨-, h⟩; exact ht h)]
  · have hcore : api_verify_core hmacHex qrKey store
        (some ⟨nom, prenom, txid, ts,
          hmacHex qrKey (String.intercalate "|" [nom, prenom, txid, ts]), "HS256", "qr_v1"⟩)
        = .ok ⟨nom, prenom, txid, ts⟩ := by
      unfold api_verify_core
      simp only [hnt, hpt, htt]
      rw [if_neg (by rintro (h | h | h | h | h)
            <;> [exact hn h; exact hp h; exact ht h; exact hts h; exact hsig h])]
      simp [hlk, hpaid]
    unfold api_verify
    rw [hcore]
  · have hcore : api_verify_core hmacHex qrKey store
        (some ⟨nom, prenom, txid, ts, sig1, "HS256", "qr_v1"⟩) = .error 401 := by
      unfold api_verify_core
      simp only [hnt, hpt, htt]
      rw [if_neg (by rintro (h | h | h | h | h)
            <;> [exact hn h; exact hp h; exact ht h; exact hts h; exact hs2 h]),
          if_neg (fun h => hs1 h.symm)]
    unfold api_verify
    rw [hcore]

/-- C6 witness: concrete round trip and rejection of a tampered signature for
(Dupont, Alice, tx1) at T1 over the paid store. -/
theorem C6_roundtrip_and_sig_tamper_witness :
    build_payload hmacEx "qrkey" "live" "Dupont" "Alice" (some "tx1") "T1"
      = .ok ⟨"Dupont", "Alice", "tx1", "T1",
          hmacEx "qrkey" (String.intercalate "|" ["Dupont", "Alice", "tx1", "T1"]), "HS256", "qr_v1"⟩
    ∧ api_verify hmacEx "qrkey" storePaidEx
        (some ⟨"Dupont", "Alice", "tx1", "T1",
          hmacEx "qrkey" (String.intercalate "|" ["Dupont", "Alice", "tx1", "T1"]), "HS256", "qr_v1"⟩)
      = .ok ⟨"Dupont", "Alice", "tx1", "T1"⟩
    ∧ api_verify hmacEx "qrkey" storePaidEx
        (some ⟨"Dupont", "Alice", "tx1", "T1", "tampered", "HS256", "qr_v1"⟩) = .error 400 :=
  C6_roundtrip_and_sig_tamper hmacEx "qrkey" "live" storePaidEx "Dupont" "Alice" "tx1" "T1"
    "tampered" recPaidEx (by decide) (by decide) (by decide) (by decide) (by decide) (by decide)
    (by decide) (by decide) (by decide) (by decide) (by decide) (by decide) (by decide) (by decide)
